import Mathlib

/-!
Verification development for the IoCreateDevice reference-analysis pipeline
(`pipeline.py` plus the `examples/` step modules).

The Python source is shallowly embedded: every dict of the source becomes a
structure with `Option String` fields (a `none` field models an absent key),
backend conversations become explicit lists of role-tagged messages supplied
as arguments, exceptions become an `Err`-valued `Except`, and every model
additionally reports how many backend conversations it issued so that
"no new backend request" properties are directly statable.
-/

/-- Exceptions of the Python source: `ValueError` raised by the step-entry
validation, `RuntimeError` raised by the structured extractors, `KeyError`
from a mandatory dict access, and any other exception. -/
inductive Err where
  | validation (msg : String)
  | extraction (msg : String)
  | keyNotFound (key : String)
  | other (msg : String)
deriving DecidableEq

/-- Model of `e.isValidation` is true exactly for the `ValueError` constructor. -/
def Err.isValidation : Err → Bool
  | .validation _ => true
  | _ => false

/-- A role-tagged backend message (one element of the `responses` lists the
steps receive from `bot.run`); `none` fields model absent dict keys. -/
structure Message where
  role : Option String
  content : Option String
deriving DecidableEq

/-- Python whitespace (the class of `str.strip()` and regex `\s`). -/
def pyWsChar (c : Char) : Bool :=
  c = ' ' || c = '\t' || c = '\n' || c = '\r' || c = '\x0b' || c = '\x0c'

/-- Drop leading Python whitespace. -/
def skipPyWs : List Char → List Char
  | [] => []
  | c :: cs => if pyWsChar c then skipPyWs cs else c :: cs

/-- Python `str.strip()`: drop leading and trailing whitespace (stated at
the character-list level so concrete instances evaluate inside proofs). -/
def pyStrip (s : String) : String :=
  String.mk ((skipPyWs (skipPyWs s.data).reverse).reverse)

/-- Model of `[resp.get("content", "") for resp in responses if resp.get("role") == "assistant"]`,
the comprehension shared by every extractor in `examples/`. -/
def assistantContents (responses : List Message) : List String :=
  (responses.filter (fun m => m.role = some "assistant")).map (fun m => m.content.getD "")

/-- JSON values as produced by `json.loads`; objects keep key order, numbers
are modelled by the integer fragment (the only one the pipeline's prompts and
the claims exercise). -/
inductive Json where
  | null
  | bool (b : Bool)
  | num (n : Int)
  | str (s : String)
  | arr (items : List Json)
  | obj (fields : List (String × Json))

/-- Python-dict insertion: replacing an existing key keeps its position,
a new key is appended (used for duplicate keys inside one JSON object). -/
def objInsert (fields : List (String × Json)) (k : String) (v : Json) :
    List (String × Json) :=
  if fields.any (fun p => p.1 = k) then
    fields.map (fun p => if p.1 = k then (k, v) else p)
  else fields ++ [(k, v)]

/-- JSON whitespace (the characters `json.loads` skips between tokens). -/
def isWsChar (c : Char) : Bool :=
  c = ' ' || c = '\t' || c = '\n' || c = '\r'

/-- Drop leading JSON whitespace. -/
def skipWs : List Char → List Char
  | [] => []
  | c :: cs => if isWsChar c then skipWs cs else c :: cs

/-- Match a literal character sequence, returning the remainder. -/
def dropLit : List Char → List Char → Option (List Char)
  | [], cs => some cs
  | _ :: _, [] => none
  | l :: ls, c :: cs => if c = l then dropLit ls cs else none

/-- Value of a hexadecimal digit, for `\uXXXX` escapes. -/
def hexVal (c : Char) : Option Nat :=
  if '0' ≤ c ∧ c ≤ '9' then some (c.toNat - '0'.toNat)
  else if 'a' ≤ c ∧ c ≤ 'f' then some (c.toNat - 'a'.toNat + 10)
  else if 'A' ≤ c ∧ c ≤ 'F' then some (c.toNat - 'A'.toNat + 10)
  else none

/-- Body of a JSON string after the opening quote: returns the decoded
characters and the remainder after the closing quote. -/
def parseStringBody : Nat → List Char → Option (List Char × List Char)
  | 0, _ => none
  | _, [] => none
  | fuel + 1, c :: cs =>
    if c = '"' then some ([], cs)
    else if c = '\\' then
      match cs with
      | [] => none
      | e :: cs' =>
        let mapped : Option (Char × List Char) :=
          if e = '"' then some ('"', cs')
          else if e = '\\' then some ('\\', cs')
          else if e = '/' then some ('/', cs')
          else if e = 'n' then some ('\n', cs')
          else if e = 't' then some ('\t', cs')
          else if e = 'r' then some ('\r', cs')
          else if e = 'b' then some ('\x08', cs')
          else if e = 'f' then some ('\x0c', cs')
          else if e = 'u' then
            match cs' with
            | h1 :: h2 :: h3 :: h4 :: cs'' =>
              match hexVal h1, hexVal h2, hexVal h3, hexVal h4 with
              | some a, some b, some c1, some d =>
                some (Char.ofNat (((a * 16 + b) * 16 + c1) * 16 + d), cs'')
              | _, _, _, _ => none
            | _ => none
          else none
        match mapped with
        | none => none
        | some (ch, rest) =>
          match parseStringBody fuel rest with
          | some (body, rest') => some (ch :: body, rest')
          | none => none
    else
      match parseStringBody fuel cs with
      | some (body, rest') => some (c :: body, rest')
      | none => none

/-- Leading decimal digits of a number token. -/
def takeDigits : List Char → List Char × List Char
  | [] => ([], [])
  | c :: cs =>
    if c.isDigit then
      let (ds, rest) := takeDigits cs
      (c :: ds, rest)
    else ([], c :: cs)

/-- Digit string to natural number. -/
def digitsToNat (ds : List Char) : Nat :=
  ds.foldl (fun acc c => acc * 10 + (c.toNat - '0'.toNat)) 0

mutual

/-- Recursive-descent JSON value parser mirroring `json.loads` (integer
fragment of numbers); fuel bounds the recursion and is chosen large enough
for the whole input at the top-level entry `jsonLoads`. -/
def parseValue : Nat → List Char → Option (Json × List Char)
  | 0, _ => none
  | fuel + 1, cs =>
    match skipWs cs with
    | [] => none
    | c :: rest =>
      if c = '"' then
        match parseStringBody (fuel + 1) rest with
        | some (body, rest') => some (.str (String.mk body), rest')
        | none => none
      else if c = '[' then
        match skipWs rest with
        | ']' :: rest' => some (.arr [], rest')
        | other => parseArrItems fuel other []
      else if c = '{' then
        match skipWs rest with
        | '}' :: rest' => some (.obj [], rest')
        | other => parseObjItems fuel other []
      else if c = 'n' then
        match dropLit ['u', 'l', 'l'] rest with
        | some rest' => some (.null, rest')
        | none => none
      else if c = 't' then
        match dropLit ['r', 'u', 'e'] rest with
        | some rest' => some (.bool true, rest')
        | none => none
      else if c = 'f' then
        match dropLit ['a', 'l', 's', 'e'] rest with
        | some rest' => some (.bool false, rest')
        | none => none
      else if c = '-' then
        match takeDigits rest with
        | ([], _) => none
        | (ds, rest') => some (.num (-(digitsToNat ds : Int)), rest')
      else if c.isDigit then
        match takeDigits (c :: rest) with
        | ([], _) => none
        | (ds, rest') => some (.num (digitsToNat ds : Int), rest')
      else none

/-- Items of a JSON array after the first non-`]` token. -/
def parseArrItems : Nat → List Char → List Json → Option (Json × List Char)
  | 0, _, _ => none
  | fuel + 1, cs, acc =>
    match parseValue fuel cs with
    | none => none
    | some (v, rest) =>
      match skipWs rest with
      | ',' :: rest' => parseArrItems fuel rest' (acc ++ [v])
      | ']' :: rest' => some (.arr (acc ++ [v]), rest')
      | _ => none

/-- Key-value pairs of a JSON object after the first non-`}` token. -/
def parseObjItems : Nat → List Char → List (String × Json) →
    Option (Json × List Char)
  | 0, _, _ => none
  | fuel + 1, cs, acc =>
    match skipWs cs with
    | '"' :: rest =>
      match parseStringBody (fuel + 1) rest with
      | none => none
      | some (key, rest') =>
        match skipWs rest' with
        | ':' :: rest'' =>
          match parseValue fuel rest'' with
          | none => none
          | some (v, rest3) =>
            let acc' := objInsert acc (String.mk key) v
            match skipWs rest3 with
            | ',' :: rest4 => parseObjItems fuel rest4 acc'
            | '}' :: rest4 => some (.obj acc', rest4)
            | _ => none
        | _ => none
    | _ => none

end

/-- Model of `json.loads`: parse the whole string as one JSON value, allowing only
surrounding whitespace; `none` models `json.JSONDecodeError`. -/
def jsonLoads (s : String) : Option Json :=
  match parseValue (2 * s.data.length + 2) s.data with
  | some (v, rest) => if (skipWs rest).isEmpty then some v else none
  | none => none

/-- Model of `k in parsed` for a parsed JSON object. -/
def hasKey (fields : List (String × Json)) (k : String) : Bool :=
  fields.any (fun p => p.1 = k)

/-- Loop of `examples/analyze_memory_param.py: extract_json` over the
reversed assistant contents: the first content that `json.loads` parses to a
dict is returned; parse failures and non-dict values are skipped. -/
def extractJsonLoop : List String → Except Err (List (String × Json))
  | [] => .error (.extraction "未能解析到 JSON 对象")
  | raw :: rest =>
    match jsonLoads raw with
    | some (Json.obj fields) => .ok fields
    | _ => extractJsonLoop rest

/-- Model of `examples/analyze_memory_param.py: extract_json` — walk *all* assistant
messages backward; each attempt parses the entire content with `json.loads`
(no code-fence search and no brace-substring fallback exist here). -/
def extract_json (responses : List Message) : Except Err (List (String × Json)) :=
  extractJsonLoop (assistantContents responses).reverse

/-- Loop of `examples/analyze_major_function.py: extract_json_object`: like
`extractJsonLoop` but a dict missing `address`/`func_name` raises at once. -/
def extractJsonObjectLoop : List String → Except Err (List (String × Json))
  | [] => .error (.extraction "未能从助手响应中解析到 JSON 对象")
  | raw :: rest =>
    match jsonLoads raw with
    | some (Json.obj fields) =>
      if hasKey fields "address" && hasKey fields "func_name" then .ok fields
      else .error (.extraction "JSON 对象缺少 address 或 func_name 字段")
    | _ => extractJsonObjectLoop rest

/-- Model of `examples/analyze_major_function.py: extract_json_object`. -/
def extract_json_object (responses : List Message) :
    Except Err (List (String × Json)) :=
  extractJsonObjectLoop (assistantContents responses).reverse

/-- Model of `extract_markdown` as shared by `describe_internal_function.py`,
`describe_external_function.py` and `analyze_irp_memory_access.py`: the last
assistant content, stripped; raises when no assistant message exists. -/
def extract_markdown (responses : List Message) : Except Err String :=
  match (assistantContents responses).getLast? with
  | none => .error (.extraction "未收到助手输出")
  | some raw => .ok (pyStrip raw)

/-- Python `str.lower()`, modelled character-wise over the string data
(identical to `String.toLower`, stated at the list level so concrete
instances evaluate inside proofs). -/
def pyLower (s : String) : String :=
  String.mk (s.data.map Char.toLower)

/-- Model of `p` is a leading segment of the character list. -/
def isPreChars : List Char → List Char → Bool
  | [], _ => true
  | _ :: _, [] => false
  | p :: ps, c :: cs => p = c && isPreChars ps cs

/-- Model of `pat` occurs as a contiguous run inside the character list. -/
def subChars (pat : List Char) : List Char → Bool
  | [] => isPreChars pat []
  | c :: cs => isPreChars pat (c :: cs) || subChars pat cs

/-- Python's `pat in s` on strings. -/
def strContains (s pat : String) : Bool :=
  subChars pat.data s.data

/-- Model of `pipeline.py: MEMORY_MARKERS`. -/
def MEMORY_MARKERS : List String := ["# MEM #", "# MAP #"]

/-- Model of `pipeline.py: has_memory_marker`. -/
def has_memory_marker (text : String) : Bool :=
  MEMORY_MARKERS.any (fun marker => strContains text marker)

/-- A row of the discover step's JSON array as consumed by
`dedupe_functions` with its default keys: the `func_name` / `address`
entries of the dict, `none` when the key is absent. -/
structure FEntry where
  func_name : Option String
  address : Option String
deriving DecidableEq

/-- Python truthiness of `d.get(k)` for a string-valued key: false for an
absent key and for the empty string. -/
def truthy : Option String → Bool
  | none => false
  | some s => s ≠ ""

/-- Model of `pipeline.py: dedupe_functions`, with the `seen` set made explicit:
rows whose name or address is absent *or empty* are skipped
(`if not name or not addr`), and later rows repeating a
`(name.lower(), address.lower())` key are dropped. -/
def dedupeAux : List (String × String) → List FEntry → List FEntry
  | _, [] => []
  | seen, e :: rest =>
    match e.func_name, e.address with
    | some n, some a =>
      if n = "" || a = "" then dedupeAux seen rest
      else
        let key := (pyLower n, pyLower a)
        if key ∈ seen then dedupeAux seen rest
        else e :: dedupeAux (key :: seen) rest
    | _, _ => dedupeAux seen rest

/-- Model of `pipeline.py: dedupe_functions` at its default key arguments. -/
def dedupe_functions (entries : List FEntry) : List FEntry :=
  dedupeAux [] entries

/-- The `(name.lower(), address.lower())` identity key of a row. -/
def entryKey (e : FEntry) : String × String :=
  (pyLower (e.func_name.getD ""), pyLower (e.address.getD ""))

/-- Plain first-seen key-dedup (no row is dropped for its field contents);
used to characterise `dedupe_functions` as filter-then-dedup. -/
def dedupeKeyedAux : List (String × String) → List FEntry → List FEntry
  | _, [] => []
  | seen, e :: rest =>
    if entryKey e ∈ seen then dedupeKeyedAux seen rest
    else e :: dedupeKeyedAux (entryKey e :: seen) rest

/-- Modelled from the words of claim C7 (not from the source): keep exactly
the records whose two fields are both *present*, in first-seen order with
later duplicate keys removed. -/
def claimedDedupe (entries : List FEntry) : List FEntry :=
  dedupeKeyedAux []
    (entries.filter (fun e => e.func_name.isSome && e.address.isSome))

/-- Entry dict of the two description steps (keys `address` / `name`). -/
structure EntryDict where
  address : Option String
  name : Option String
deriving DecidableEq

/-- Target dict of the analysis steps (keys `address` / `func_name`). -/
structure TargetDict where
  address : Option String
  func_name : Option String
deriving DecidableEq

/-- A line of `external_function_cache.jsonl` as loaded by `load_cache`:
one `DescriptionRecord` per function name. -/
structure DescRecord where
  name : String
  markdown : String
  addresses : List String
deriving DecidableEq

/-- The loaded cache: insertion-ordered map from lowercased name to record.
The list also *is* the persisted JSONL state, since `write_cache` rewrites
the file with exactly these records in order. -/
abbrev Cache := List (String × DescRecord)

/-- Ordered-dict lookup. -/
def cacheFind : Cache → String → Option DescRecord
  | [], _ => none
  | (k, r) :: rest, key => if k = key then some r else cacheFind rest key

/-- Ordered-dict update: an existing key keeps its position, a new key is
appended (Python `cache[key] = record` on an `OrderedDict`). -/
def cacheSet : Cache → String → DescRecord → Cache
  | [], key, r => [(key, r)]
  | (k, r0) :: rest, key, r =>
    if k = key then (k, r) :: rest else (k, r0) :: cacheSet rest key r

/-- Model of `describe_external_function.py: cache_lookup`. -/
def cache_lookup (cache : Cache) (name : String) : Option DescRecord :=
  cacheFind cache (pyLower name)

/-- Model of `describe_external_function.py: cache_update`: fetch or create the
record for the lowercased name, overwrite its markdown, append the address
when new, store, and (by returning the new list) rewrite the JSONL file. -/
def cache_update (cache : Cache) (name markdown address : String) : Cache :=
  let key := pyLower name
  let record := (cacheFind cache key).getD ⟨name, markdown, []⟩
  let record := { record with markdown := markdown }
  let addresses :=
    if address ∈ record.addresses then record.addresses
    else record.addresses ++ [address]
  cacheSet cache key { record with addresses := addresses }

/-- Result of one `describe_external_function` call: the returned markdown
(or exception), the cache state it leaves behind, and how many backend
conversations it issued. -/
structure ExtDescResult where
  result : Except Err String
  cache : Cache
  backendCalls : Nat

/-- Model of `describe_external_function.py: describe_external_function`.
`responses` is what the backend conversation would return if issued.
Validation checks key *presence*; a cache hit answers with the cached
markdown and no backend conversation, extending the address list first when
the call's address is new; a miss runs the backend once and caches. -/
def describe_external_function (cache : Cache) (entry : EntryDict)
    (responses : List Message) : ExtDescResult :=
  if entry.address = none || entry.name = none then
    ⟨.error (.validation "entry 必须包含 address 与 name 字段"), cache, 0⟩
  else
    let name := entry.name.getD ""
    let address := entry.address.getD ""
    match cache_lookup cache name with
    | some cached =>
      let cache' :=
        if address ∈ cached.addresses then cache
        else cache_update cache name cached.markdown address
      ⟨.ok cached.markdown, cache', 0⟩
    | none =>
      match extract_markdown responses with
      | .error e => ⟨.error e, cache, 1⟩
      | .ok markdown =>
        ⟨.ok markdown, cache_update cache name markdown address, 1⟩

/-- Model of `describe_internal_function.py: describe_internal_function`: validates
key presence, then always runs one backend conversation — no cache exists
on this path. -/
def describe_internal_function (entry : EntryDict) (responses : List Message) :
    Except Err String × Nat :=
  if entry.address = none || entry.name = none then
    (.error (.validation "entry 必须包含 address 与 name 字段"), 0)
  else (extract_markdown responses, 1)

/-- Model of `analyze_memory_param.py: analyze_memory_param`: validates key
presence, then one backend conversation and the dict extraction. -/
def analyze_memory_param (target : TargetDict) (responses : List Message) :
    Except Err (List (String × Json)) × Nat :=
  if target.address = none || target.func_name = none then
    (.error (.validation "target 必须包含 address 与 func_name 键"), 0)
  else (extract_json responses, 1)

/-- Model of `analyze_major_function.py: analyze_major_function_target`: validates
key presence, then one backend conversation and the keyed-object
extraction — there is no retry loop around this step. -/
def analyze_major_function_target (target : TargetDict)
    (responses : List Message) : Except Err (List (String × Json)) × Nat :=
  if target.address = none || target.func_name = none then
    (.error (.validation "target 字典必须包含 address 与 func_name 键"), 0)
  else (extract_json_object responses, 1)

/-- The payload `save_transcript` appends to `logs.txt` and to the caller's
sink: the target, the conversation context, and the raw responses
(`saved_at` carries a wall-clock stamp and is out of the model's scope). -/
structure Transcript where
  target : TargetDict
  context : Option String
  responses : List Message
deriving DecidableEq

/-- Model of `analyze_irp_memory_access.py: analyze_irp_memory_access`: validation,
one backend conversation, transcript capture (which happens *before* the
markdown extraction, hence also on extraction failure), extraction. -/
def analyze_irp_memory_access (target : TargetDict) (context : Option String)
    (responses : List Message) : Except Err String × Nat × Option Transcript :=
  if target.address = none || target.func_name = none then
    (.error (.validation "target 必须包含 address 与 func_name 键"), 0, none)
  else (extract_markdown responses, 1, some ⟨target, context, responses⟩)

/-- Consume an optional case-insensitive `json` tag after the opening
backticks (`(?:json)?` with `re.IGNORECASE`). -/
def dropJsonTag (cs : List Char) : List Char :=
  match cs with
  | a :: b :: c :: d :: rest =>
    if a.toLower = 'j' && b.toLower = 's' && c.toLower = 'o' && d.toLower = 'n' then rest
    else cs
  | _ => cs

/-- Non-greedy body of `(\[[\s\S]*?\])\s*` + closing backticks: collect
characters up to the *first* `]` that is followed by whitespace and three
backticks; return the body (with that `]`) and the text after the fence. -/
def fenceBody : List Char → Option (List Char × List Char)
  | [] => none
  | c :: cs =>
    if c = ']' then
      match dropLit ['`', '`', '`'] (skipPyWs cs) with
      | some rest' => some ([']'], rest')
      | none =>
        match fenceBody cs with
        | some (body, rest') => some (']' :: body, rest')
        | none => none
    else
      match fenceBody cs with
      | some (body, rest') => some (c :: body, rest')
      | none => none

/-- Try to complete a fence match right after an opening ```;
returns the captured `[...]` text and the remainder after the fence. -/
def fenceMatchAt (cs : List Char) : Option (List Char × List Char) :=
  match skipPyWs (dropJsonTag cs) with
  | '[' :: rest =>
    match fenceBody rest with
    | some (body, rest') => some ('[' :: body, rest')
    | none => none
  | _ => none

/-- Left-to-right, non-overlapping scan of
`find_iocreatedevice_refs.py: JSON_BLOCK_RE.findall`. -/
def findFenceBlocksAux : Nat → List Char → List (List Char)
  | 0, _ => []
  | _, [] => []
  | fuel + 1, cs =>
    match cs with
    | '`' :: '`' :: '`' :: rest =>
      (match fenceMatchAt rest with
       | some (cap, rest') => cap :: findFenceBlocksAux fuel rest'
       | none =>
         match cs with
         | _ :: cs' => findFenceBlocksAux fuel cs'
         | [] => [])
    | _ :: cs' => findFenceBlocksAux fuel cs'
    | [] => []

/-- All captures of the `JSON_BLOCK_RE` code-fence regex in a string. -/
def jsonBlockFindall (s : String) : List String :=
  (findFenceBlocksAux (s.data.length + 1) s.data).map String.mk

/-- Model of `find_iocreatedevice_refs.py: _load_json_array` — parse and keep only
JSON arrays. -/
def loadJsonArray (s : String) : Option (List Json) :=
  match jsonLoads s with
  | some (Json.arr items) => some items
  | _ => none

/-- First fence capture that parses to an array. -/
def firstArrayBlock : List String → Option (List Json)
  | [] => none
  | b :: rest =>
    match loadJsonArray b with
    | some l => some l
    | none => firstArrayBlock rest

/-- Index of the first occurrence of a character. -/
def charIndexOf : List Char → Char → Option Nat
  | [], _ => none
  | c :: cs, target =>
    if c = target then some 0
    else (charIndexOf cs target).map (· + 1)

/-- Index of the last occurrence of a character. -/
def charLastIndexOf (cs : List Char) (target : Char) : Option Nat :=
  (charIndexOf cs.reverse target).map (fun i => cs.length - 1 - i)

/-- Model of `raw[raw.find("["):raw.rfind("]")+1]` guarded by
`first != -1 and last != -1 and last > first`. -/
def sliceFirstLastBracket (s : String) : Option String :=
  match charIndexOf s.data '[', charLastIndexOf s.data ']' with
  | some first, some last =>
    if first < last then some (String.mk ((s.data.drop first).take (last + 1 - first)))
    else none
  | _, _ => none

/-- Loop of `find_iocreatedevice_refs.py: extract_json_result` over the
reversed assistant contents: per message, (a) parse the whole stripped text,
(b) parse each tagged code-fence capture, (c) parse the first-`[`-to-last-`]`
substring; `none` models the final `RuntimeError`. -/
def extractJsonResultLoop : List String → Option (List Json)
  | [] => none
  | raw0 :: rest =>
    let raw := pyStrip raw0
    if raw = "" then extractJsonResultLoop rest
    else
      match loadJsonArray raw with
      | some l => some l
      | none =>
        match firstArrayBlock (jsonBlockFindall raw) with
        | some l => some l
        | none =>
          match sliceFirstLastBracket raw with
          | some sub =>
            (match loadJsonArray sub with
             | some l => some l
             | none => extractJsonResultLoop rest)
          | none => extractJsonResultLoop rest

/-- Model of `find_iocreatedevice_refs.py: extract_json_result` as an option
(`none` = the `RuntimeError` that the retry loop catches). -/
def extractJsonResultOpt (responses : List Message) : Option (List Json) :=
  extractJsonResultLoop (assistantContents responses).reverse

/-- The diagnostic lines printed after a failed attempt:
`[role={role}] {content}` for every response with non-empty content. -/
def diagPrints (responses : List Message) : List (String × String) :=
  responses.filterMap (fun m =>
    let content := m.content.getD ""
    if content = "" then none else some (m.role.getD "", content))

/-- Observable outcome of `find_iocreatedevice_refs`: the value or final
exception, the number of backend conversations issued, the diagnostic lines
printed, and the fixed 30-second sleeps performed, in order. -/
structure FindRefsResult where
  result : Except Err (List Json)
  backendCalls : Nat
  printed : List (String × String)
  sleeps : List Nat

/-- Model of `find_iocreatedevice_refs.py: find_iocreatedevice_refs` — the only
retry loop in the code base: up to 3 attempts (`for attempt in range(3)`),
each submitting one fresh backend conversation (`backend n` is attempt
`n`'s response list); an extraction failure prints the diagnostics and, on
the first two attempts, sleeps 30 seconds before retrying; the third
failure re-raises. -/
def find_iocreatedevice_refs (backend : Nat → List Message) : FindRefsResult :=
  let r0 := backend 0
  match extractJsonResultOpt r0 with
  | some l => ⟨.ok l, 1, [], []⟩
  | none =>
    let p0 := diagPrints r0
    let r1 := backend 1
    match extractJsonResultOpt r1 with
    | some l => ⟨.ok l, 2, p0, [30]⟩
    | none =>
      let p1 := diagPrints r1
      let r2 := backend 2
      match extractJsonResultOpt r2 with
      | some l => ⟨.ok l, 3, p0 ++ p1, [30, 30]⟩
      | none =>
        ⟨.error (.extraction "未能从助手响应中解析到 JSON 列表"), 3,
          p0 ++ p1 ++ diagPrints r2, [30, 30]⟩

/-- A channel fragment of one streamed delta, as `_stringify_stream_field`
distinguishes them: Python `None` (also covering an absent key and JSON
null, which are the same `None` object in the source), a plain string, a
list of items (spelled as a cons chain), or a structured dict item with
`text` / `content` / `data` fields (`null` when a field is absent). A dict
additionally carries the `json.dumps` serialization of its full contents,
which the fallback path prints when no text-bearing field applies. -/
inductive SField where
  | null
  | str (s : String)
  | listNil
  | listCons (head tail : SField)
  | dict (text content data : SField) (dump : String)
deriving DecidableEq

/-- Python truthiness of a field value (`None`, `""` and `[]` are falsy;
dicts here model the non-empty dicts the stream produces). -/
def truthySF : SField → Bool
  | .null => false
  | .str s => s ≠ ""
  | .listNil => false
  | .listCons _ _ => true
  | .dict _ _ _ _ => true

/-- Model of `json.dumps` string escaping (`ensure_ascii=False`). -/
def jsonEscape (s : String) : String :=
  String.join (s.data.map (fun c =>
    if c = '\\' then "\\\\"
    else if c = '"' then "\\\""
    else if c = '\n' then "\\n"
    else if c = '\t' then "\\t"
    else if c = '\r' then "\\r"
    else String.mk [c]))

/-- Serialization mode: a whole value, or the `, `-prefixed tail items of a
list being joined. -/
inductive DMode where
  | value
  | seq
deriving DecidableEq

/-- Model of `json.dumps(field, ensure_ascii=False)` over stream field values; a
dict prints the serialization it carries. -/
def dumpsSF : DMode → SField → String
  | .value, .null => "null"
  | .value, .str s => "\"" ++ jsonEscape s ++ "\""
  | .value, .listNil => "[]"
  | .value, .listCons h t => "[" ++ dumpsSF .value h ++ dumpsSF .seq t ++ "]"
  | .value, .dict _ _ _ dump => dump
  | .seq, .listNil => ""
  | .seq, .listCons h t => ", " ++ dumpsSF .value h ++ dumpsSF .seq t
  | .seq, _ => ""

/-- Model of `json.dumps` of one whole field value. -/
def jsonDumps (f : SField) : String :=
  dumpsSF .value f

/-- A truthy hit of the list-item chain: kept when a string, serialized
otherwise (`if not isinstance(text, str): text = json.dumps(text)`). -/
def sfHit (v : SField) : String :=
  match v with
  | .str s => s
  | v' => jsonDumps v'

/-- Flattening mode of `_stringify_stream_field`: a whole field value, one
item of a list-valued field, or the remaining items of a list. -/
inductive SMode where
  | value
  | item
  | seq
deriving DecidableEq

/-- Model of `pipeline.py: _stringify_stream_field` (with `sfRun .item` playing the
loop body over list items): `None` flattens to `""`, strings pass through,
lists flatten item-wise, and a dict yields its first of `text` / `content`
(a string directly — even empty, a truthy non-string recursively, anything
else the carried dict serialization); a dict *inside a list* instead takes
its first truthy `text` / `content` / `data` (serialized when not a
string, `""` when none is truthy). -/
def sfRun : SMode → SField → String
  | .value, .null => ""
  | .value, .str s => s
  | .value, .listNil => ""
  | .value, .listCons h t => sfRun .item h ++ sfRun .seq t
  | .value, .dict t c _ dump =>
    if truthySF t then
      (match t with
       | .str s => s
       | v => if truthySF v then sfRun .value v else dump)
    else
      (match c with
       | .str s => s
       | v => if truthySF v then sfRun .value v else dump)
  | .seq, .listNil => ""
  | .seq, .listCons h t => sfRun .item h ++ sfRun .seq t
  | .seq, _ => ""
  | .item, .dict t c d _ =>
    if truthySF t then sfHit t
    else if truthySF c then sfHit c
    else if truthySF d then sfHit d
    else ""
  | .item, .null => ""
  | .item, .str s => s
  | .item, .listNil => ""
  | .item, .listCons h t => sfRun .item h ++ sfRun .seq t

/-- Model of `_stringify_stream_field` over one field value. -/
def stringifySF (f : SField) : String :=
  sfRun .value f

/-- One streamed delta: its `reasoning_content`, `thinking` and `content`
attributes (absent attribute → `none`). -/
structure Delta where
  reasoning_content : SField
  thinking : SField
  content : SField

/-- One stream chunk: `choices` (each choice carrying an optional delta)
and the optional usage statistics (flattened to display text). -/
structure Chunk where
  choices : List (Option Delta)
  usage : Option String

/-- Console output of the streaming loop, in order: live-echoed reasoning
fragments, the one-time `完整回复` banner, echoed answer fragments, and
usage statistics. -/
inductive PrintEvent where
  | thinkingEcho (s : String)
  | answerBanner
  | answerEcho (s : String)
  | usageEcho (s : String)
deriving DecidableEq

/-- Mutable state of `run_deep_reasoning`'s streaming loop:
the two accumulators, the `is_answering` flag and the console trace. -/
structure StreamState where
  reasoningParts : List String
  answerParts : List String
  isAnswering : Bool
  events : List PrintEvent

/-- One iteration of `for chunk in stream` in
`pipeline.py: run_deep_reasoning`: chunks without choices only surface
usage statistics; a reasoning fragment is echoed only while not answering
but is *always* appended to the reasoning accumulator; the first non-empty
answer fragment prints the banner and flips `is_answering`. -/
def streamStep (st : StreamState) (ch : Chunk) : StreamState :=
  match ch.choices with
  | [] =>
    match ch.usage with
    | some u => { st with events := st.events ++ [.usageEcho u] }
    | none => st
  | choice0 :: _ =>
    match choice0 with
    | none => st
    | some delta =>
      let thinking0 := stringifySF delta.reasoning_content
      let thinking := if thinking0 = "" then stringifySF delta.thinking else thinking0
      let st1 :=
        if thinking ≠ "" then
          { st with
            events :=
              if st.isAnswering then st.events
              else st.events ++ [.thinkingEcho thinking],
            reasoningParts := st.reasoningParts ++ [thinking] }
        else st
      let content := stringifySF delta.content
      if content ≠ "" then
        let st2 :=
          if !st1.isAnswering then
            { st1 with events := st1.events ++ [.answerBanner], isAnswering := true }
          else st1
        { st2 with
          events := st2.events ++ [.answerEcho content],
          answerParts := st2.answerParts ++ [content] }
      else st1

/-- The whole streaming loop from its initial `THINKING` state
(`reasoning_parts = []`, `answer_parts = []`, `is_answering = False`). -/
def runStream (chunks : List Chunk) : StreamState :=
  chunks.foldl streamStep ⟨[], [], false, []⟩

/-- Model of `reasoning_text = "".join(reasoning_parts).strip()`. -/
def reasoningText (st : StreamState) : String :=
  pyStrip (String.join st.reasoningParts)

/-- Model of `answer_text = "".join(answer_parts).strip()`. -/
def answerText (st : StreamState) : String :=
  pyStrip (String.join st.answerParts)

/-- The reasoning fragments actually echoed live to the console. -/
def liveThinkingEchoes (st : StreamState) : List String :=
  st.events.filterMap (fun e =>
    match e with
    | .thinkingEcho s => some s
    | _ => none)

/-- The combined document `run_deep_reasoning` returns: both accumulators
under fixed headings, with placeholders for empty channels. -/
def deepReasoningOutput (st : StreamState) : String :=
  let rt := reasoningText st
  let ans := answerText st
  pyStrip (String.intercalate "\n\n"
    ["### 思考过程", if rt = "" then "（无思考内容）" else rt,
     "### 完整回复", if ans = "" then "（无正式回复）" else ans])

/-- A resolved handler target, `{"address": ..., "func_name": ...}` with
both keys guaranteed by `extract_json_object` (used by every per-handler
step of `pipeline.py`). -/
structure HTarget where
  address : String
  func_name : String
deriving DecidableEq

/-- One row of `list_subfunctions`' JSON array as the pipeline reads it:
the `address` / `name` / `type` keys, `none` when absent. -/
structure ChildDict where
  address : Option String
  name : Option String
  ftype : Option String
deriving DecidableEq

/-- Backend-reaching calls the pipeline makes, for observing which steps
actually ran (and with which arguments) during one run. -/
inductive Call where
  | findRefs
  | analyzeMajor (caller : FEntry)
  | renameIoc (t : HTarget)
  | defineDispatch (t : HTarget)
  | listSub (t : HTarget)
  | descExternal (address name : String)
  | descInternal (address name : String)
  | memParam (t : HTarget)
  | irp (t : HTarget) (ctx : String)
deriving DecidableEq

/-- Outcomes of the collaborator steps as seen from `pipeline.py`: each
field is one imported step function, returning its value or raising. The
pipeline claims are proved for every such environment. -/
structure Env where
  findRefs : Except Err (List FEntry)
  analyzeMajor : FEntry → Except Err HTarget
  renameIoc : HTarget → Except Err String
  defineDispatch : HTarget → Except Err String
  listSub : HTarget → Except Err (List ChildDict)
  descExternal : String → String → Except Err String
  descInternal : String → String → Except Err String
  memParamMd : HTarget → Except Err String
  irp : HTarget → String → Option Transcript × Except Err String

/-- Model of `pipeline.py: describe_child`: an external child is described by
`describe_external_function` and returned at once — the marker check below
is never reached for it; an internal child is described by
`describe_internal_function`, and only when that description contains a
memory marker is `analyze_memory_param_markdown` additionally called, its
markdown appended after `\n\n---\n` and also returned as the code excerpt.
Missing `address`/`name` keys raise `KeyError` out of the function. -/
def describe_child (env : Env) (child : ChildDict) :
    Except Err (String × String) × List Call :=
  if child.ftype = some "external" then
    match child.address with
    | none => (.error (.keyNotFound "address"), [])
    | some a =>
      match child.name with
      | none => (.error (.keyNotFound "name"), [])
      | some n =>
        match env.descExternal a n with
        | .ok desc => (.ok (desc, ""), [.descExternal a n])
        | .error e => (.error e, [.descExternal a n])
  else
    match child.address with
    | none => (.error (.keyNotFound "address"), [])
    | some a =>
      match child.name with
      | none => (.error (.keyNotFound "name"), [])
      | some n =>
        match env.descInternal a n with
        | .error e => (.error e, [.descInternal a n])
        | .ok desc =>
          if has_memory_marker desc then
            match env.memParamMd ⟨a, n⟩ with
            | .error e => (.error e, [.descInternal a n, .memParam ⟨a, n⟩])
            | .ok memMd =>
              (.ok (desc ++ "\n\n---\n" ++ memMd, memMd),
                [.descInternal a n, .memParam ⟨a, n⟩])
          else (.ok (desc, ""), [.descInternal a n])

/-- Model of `pipeline.py: format_child_section`. -/
def format_child_section (child : ChildDict) (description : String) : String :=
  "#### " ++ child.name.getD "unknown" ++ " (" ++ child.ftype.getD "internal" ++
    ")\n- 地址：`" ++ child.address.getD "N/A" ++ "`" ++ "\n\n" ++ pyStrip description

/-- The per-child loop of `process_major_function`: a child whose
description raises is logged and *skipped* — nothing is appended for it —
while successes contribute their section (and, when non-empty, their
code excerpt) in enumeration order. -/
def childLoop (env : Env) : List ChildDict →
    List String × List String × List Call
  | [] => ([], [], [])
  | child :: rest =>
    let (r, tr) := describe_child env child
    let (ss, ms, trs) := childLoop env rest
    match r with
    | .error _ => (ss, ms, tr ++ trs)
    | .ok (desc, memCode) =>
      let sec := format_child_section child desc
      let ms' :=
        if memCode ≠ "" then
          ("### " ++ (match child.name with | some n => n | none => "None") ++
            " 可控内存参数\n" ++ pyStrip memCode) :: ms
        else ms
      (sec :: ss, ms', tr ++ trs)

/-- The fixed placeholder substituted when no child description exists. -/
def NO_CHILD_PLACEHOLDER : String := "（未获取到子函数描述）"

/-- Model of `child_block = "\n\n".join(child_sections) if child_sections else …`. -/
def childBlockOf (sections : List String) : String :=
  if sections.isEmpty then NO_CHILD_PLACEHOLDER
  else String.intercalate "\n\n" sections

/-- Model of `pipeline.py: analyze_parent_memory`: failures degrade to the fixed
placeholder instead of propagating. -/
def analyze_parent_memory (env : Env) (target : HTarget) : String × List Call :=
  ((match env.memParamMd target with
    | .ok result => result
    | .error _ => "（analyze_memory_param 运行失败）"), [.memParam target])

/-- Model of `pipeline.py: analyze_irp_memory_section`: the transcript captured by
the step stays in the sink even when the step then fails, and a failure
degrades to the fixed placeholder. -/
def analyze_irp_memory_section (env : Env) (target : HTarget)
    (context : String) : String × Option Transcript × List Call :=
  ((match (env.irp target context).2 with
    | .ok r => r
    | .error _ => "（IRP 控制内存访问分析失败）"),
    (env.irp target context).1, [.irp target context])

/-- Model of `BUILD_CONTEXT`: the non-empty parts joined by newlines and stripped,
then the controlled-memory-code section appended only when some child
produced a code excerpt. -/
def combinedContextOf (childBlock parentMemMd : String)
    (childMemCodes : List String) : String :=
  let parts := ["### 子函数描述\n", childBlock, "\n### 函数内存参数分析\n", parentMemMd]
  let base := pyStrip (String.intercalate "\n" (parts.filter (fun p => p ≠ "")))
  if childMemCodes.isEmpty then base
  else base ++ "\n\n### 可控内存参数代码\n" ++ String.intercalate "\n\n" childMemCodes

/-- All local variables of one `process_major_function` invocation, so the
claims can speak about the intermediate blocks as well as the returned
triple (`report`, `transcripts`, `memCodes`). -/
structure PMFResult where
  childSections : List String
  childMemCodes : List String
  childBlock : String
  parentMemMd : String
  combinedContext : String
  irpMd : String
  transcripts : List Transcript
  report : String
  trace : List Call

/-- Model of `pipeline.py: process_major_function`: enumeration failure degrades to
an empty child list (`children = []`), after which the child loop, the
parent memory analysis, the context build, the controlled-access analysis
and the report assembly all still run. -/
def process_major_function (env : Env) (caller : FEntry) (handler : HTarget) :
    PMFResult :=
  let target := handler
  let (children, listTrace) :=
    match env.listSub target with
    | .ok cs => (cs, [Call.listSub target])
    | .error _ => ([], [Call.listSub target])
  let (sections, memCodes, childTrace) := childLoop env children
  let childBlock := childBlockOf sections
  let (parentMemMd, pmTrace) := analyze_parent_memory env target
  let combined := combinedContextOf childBlock parentMemMd memCodes
  let (irpMd, tOpt, irpTrace) := analyze_irp_memory_section env target combined
  let reportLines := [
    "### Caller: " ++ caller.func_name.getD "None" ++ " @ `" ++
      caller.address.getD "None" ++ "`",
    "",
    "**MajorFunction[14] 处理函数：** " ++ target.func_name ++ " @ `" ++
      target.address ++ "`",
    "",
    "#### 子函数描述",
    childBlock,
    "",
    "#### 函数内存参数分析",
    parentMemMd,
    "",
    "#### IRP 控制内存访问",
    irpMd]
  { childSections := sections
    childMemCodes := memCodes
    childBlock := childBlock
    parentMemMd := parentMemMd
    combinedContext := combined
    irpMd := irpMd
    transcripts := tOpt.toList
    report := pyStrip (String.intercalate "\n" reportLines)
    trace := listTrace ++ childTrace ++ pmTrace ++ irpTrace }

/-- Whole-run outcome of `pipeline.py: main`. -/
structure MainResult where
  reports : List String
  transcripts : List Transcript
  memCodes : List String
  finalOutput : Option String
  trace : List Call
  aborted : Option Err

/-- The `for idx, caller in enumerate(callers, 1)` loop of `main`: a caller
whose handler resolution fails is skipped entirely; otherwise the rename
and prototype steps run best-effort (their results affect nothing beyond
console output) and `process_major_function` contributes one report. -/
def processCallers (env : Env) : List FEntry →
    List String × List Transcript × List String × List Call
  | [] => ([], [], [], [])
  | caller :: rest =>
    let (rs, ts, ms, tr) := processCallers env rest
    match env.analyzeMajor caller with
    | .error _ => (rs, ts, ms, Call.analyzeMajor caller :: tr)
    | .ok handler =>
      let pmf := process_major_function env caller handler
      (pmf.report :: rs, pmf.transcripts ++ ts, pmf.childMemCodes ++ ms,
        Call.analyzeMajor caller :: Call.renameIoc handler ::
          Call.defineDispatch handler :: (pmf.trace ++ tr))

/-- Model of `pipeline.py: main` up to the report assembly: discovery failure aborts
the run, an empty (deduplicated) caller list returns without a report, and
otherwise every surviving caller contributes one section to the final
output joined by the fixed separator. -/
def pipeline_main (env : Env) : MainResult :=
  match env.findRefs with
  | .error e => ⟨[], [], [], none, [.findRefs], some e⟩
  | .ok entries =>
    let callers := dedupe_functions entries
    if callers.isEmpty then ⟨[], [], [], none, [.findRefs], none⟩
    else
      let (rs, ts, ms, tr) := processCallers env callers
      ⟨rs, ts, ms,
        some ("# IoCreateDevice 调度分析报告\n\n" ++
          String.intercalate "\n\n---\n\n" rs),
        .findRefs :: tr, none⟩

/-- An assistant message with the given content. -/
def mkAssistantMsg (s : String) : Message :=
  ⟨some "assistant", some s⟩

/-- Whether a step outcome is the step-entry `ValueError`. -/
def isValidationResult {α : Type} : Except Err α → Bool
  | .error e => e.isValidation
  | .ok _ => false

/-- A chunk carrying only a reasoning-channel fragment. -/
def chunkReasoning (s : String) : Chunk :=
  ⟨[some ⟨.str s, .null, .null⟩], none⟩

/-- A chunk carrying only an answer-channel fragment. -/
def chunkAnswer (s : String) : Chunk :=
  ⟨[some ⟨.null, .null, .str s⟩], none⟩

/-- The token sequence of the streaming-split scenario: two reasoning
fragments, one answer fragment, one trailing reasoning fragment. -/
def c8Chunks : List Chunk :=
  [chunkReasoning "why ", chunkReasoning "so", chunkAnswer "yes",
    chunkReasoning "ignored"]

/-- Step outcomes where the external description of `MmMapIoSpace` carries
the `# MAP #` marker (exercising the external branch of
`describe_child`). -/
def envExtMarker : Env where
  findRefs := .ok []
  analyzeMajor := fun _ => .error (.other "unused")
  renameIoc := fun _ => .ok "unused"
  defineDispatch := fun _ => .ok "unused"
  listSub := fun _ => .ok []
  descExternal := fun _ _ => .ok "MmMapIoSpace wrapper # MAP # (see definition)"
  descInternal := fun _ _ => .ok "unused"
  memParamMd := fun _ => .ok "MEMO"
  irp := fun _ _ => (none, .ok "unused")

/-- Step outcomes where internal descriptions carry the `# MEM #` marker
for `sub_81` only (exercising the internal branches of
`describe_child`). -/
def envIntMarker : Env where
  findRefs := .ok []
  analyzeMajor := fun _ => .error (.other "unused")
  renameIoc := fun _ => .ok "unused"
  defineDispatch := fun _ => .ok "unused"
  listSub := fun _ => .ok []
  descExternal := fun _ _ => .ok "plain external"
  descInternal := fun _ n =>
    if n = "sub_81" then .ok "copies the request buffer # MEM #"
    else .ok "plain helper"
  memParamMd := fun _ => .ok "MEMNOTE"
  irp := fun _ _ => (none, .ok "unused")

/-- Discovered caller rows of the three-caller scenario. -/
def callerA : FEntry := ⟨some "StartA", some "0x1000"⟩

/-- Second discovered caller row. -/
def callerB : FEntry := ⟨some "StartB", some "0x2000"⟩

/-- Third discovered caller row. -/
def callerC : FEntry := ⟨some "StartC", some "0x3000"⟩

/-- Handler resolved for `callerA`. -/
def handlerA : HTarget := ⟨"0x1100", "DispatchA"⟩

/-- Handler resolved for `callerB`. -/
def handlerB : HTarget := ⟨"0x2100", "DispatchB"⟩

/-- Handler resolved for `callerC`. -/
def handlerC : HTarget := ⟨"0x3100", "DispatchC"⟩

/-- Step outcomes of the three-caller scenario: all handlers resolve, and
enumerate-children raises for `handlerB` only. -/
def envThreeCallers : Env where
  findRefs := .ok [callerA, callerB, callerC]
  analyzeMajor := fun c =>
    if c = callerA then .ok handlerA
    else if c = callerB then .ok handlerB
    else .ok handlerC
  renameIoc := fun _ => .ok "renamed"
  defineDispatch := fun _ => .ok "prototyped"
  listSub := fun t =>
    if t = handlerB then .error (.extraction "枚举失败") else .ok []
  descExternal := fun _ _ => .ok "ext description"
  descInternal := fun _ _ => .ok "int description"
  memParamMd := fun _ => .ok "mem markdown"
  irp := fun t ctx =>
    (some ⟨⟨some t.address, some t.func_name⟩, some ctx, []⟩, .ok "irp markdown")

/-- Step outcomes where describing child `bad` raises and every other
child succeeds (exercising the per-child skip of the report loop). -/
def envChildFail : Env where
  findRefs := .ok []
  analyzeMajor := fun _ => .error (.other "unused")
  renameIoc := fun _ => .ok "unused"
  defineDispatch := fun _ => .ok "unused"
  listSub := fun _ => .ok []
  descExternal := fun _ n => .ok ("desc of " ++ n)
  descInternal := fun _ n =>
    if n = "bad" then .error (.extraction "描述失败") else .ok ("desc of " ++ n)
  memParamMd := fun _ => .ok "unused"
  irp := fun _ _ => (none, .ok "unused")

/-- A backend whose replies never parse (every attempt fails extraction). -/
def c3BadBackend : Nat → List Message :=
  fun _ => [mkAssistantMsg "no json here"]

/-- A backend failing on attempt 0 and answering `[]` on attempt 1. -/
def c3GoodBackend : Nat → List Message :=
  fun n => if n = 0 then [mkAssistantMsg "x"] else [mkAssistantMsg "[]"]

theorem assistantContents_append (a b : List Message) :
    assistantContents (a ++ b) = assistantContents a ++ assistantContents b := by
  simp [assistantContents]

/-- C1: on the code, the object-shape extraction walks backward through all
assistant messages but attempts only a whole-text `json.loads` parse per
message, so the fence-wrapped and noise-wrapped inputs of the claim do not
extract to `{"a":1}` — they raise the extraction error. -/
theorem c1_counterexample :
    extract_json [mkAssistantMsg "prefix ```json\n\x7b\"a\":1\x7d\n``` suffix"] =
      .error (.extraction "未能解析到 JSON 对象") ∧
    extract_json [mkAssistantMsg "prefix ```json\n\x7b\"a\":1\x7d\n``` suffix"] ≠
      .ok [("a", Json.num 1)] ∧
    extract_json [mkAssistantMsg "noise \x7b\"a\":1\x7d noise"] =
      .error (.extraction "未能解析到 JSON 对象") ∧
    extract_json [mkAssistantMsg "noise \x7b\"a\":1\x7d noise"] ≠
      .ok [("a", Json.num 1)] := by
  refine ⟨rfl, ?_, rfl, ?_⟩
  · intro h
    exact Except.noConfusion
      ((show extract_json [mkAssistantMsg "prefix ```json\n\x7b\"a\":1\x7d\n``` suffix"] =
          Except.error (Err.extraction "未能解析到 JSON 对象") from rfl).symm.trans h)
  · intro h
    exact Except.noConfusion
      ((show extract_json [mkAssistantMsg "noise \x7b\"a\":1\x7d noise"] =
          Except.error (Err.extraction "未能解析到 JSON 对象") from rfl).symm.trans h)

/-- C1 (amended): object-shape extraction walks backward through all
assistant messages, but each attempt parses only the entire content as
JSON — there is no fenced-code-block fallback and no brace-substring
fallback for objects (those exist only in the array-shape extractor). The
bare input extracts to `{"a":1}`; the fence-wrapped, noise-wrapped and
no-JSON inputs all raise the extraction error. -/
theorem c1_object_extraction :
    extract_json [mkAssistantMsg "\x7b\"a\":1\x7d"] = .ok [("a", Json.num 1)] ∧
    extract_json [mkAssistantMsg "prefix ```json\n\x7b\"a\":1\x7d\n``` suffix"] =
      .error (.extraction "未能解析到 JSON 对象") ∧
    extract_json [mkAssistantMsg "noise \x7b\"a\":1\x7d noise"] =
      .error (.extraction "未能解析到 JSON 对象") ∧
    extract_json [mkAssistantMsg "no json here"] =
      .error (.extraction "未能解析到 JSON 对象") ∧
    (∀ (ms : List Message) (raw : String) (fields : List (String × Json)),
      jsonLoads raw = some (Json.obj fields) →
      extract_json (ms ++ [mkAssistantMsg raw]) = .ok fields) ∧
    (∀ (ms : List Message) (raw : String),
      (∀ fields, jsonLoads raw ≠ some (Json.obj fields)) →
      extract_json (ms ++ [mkAssistantMsg raw]) = extract_json ms) := by
  refine ⟨rfl, rfl, rfl, rfl, ?_, ?_⟩
  · intro ms raw fields hparse
    simp only [extract_json, assistantContents_append, List.reverse_append]
    have : assistantContents [mkAssistantMsg raw] = [raw] := rfl
    rw [this]
    simp only [List.reverse_cons, List.reverse_nil, List.nil_append,
      List.cons_append, extractJsonLoop, hparse]
  · intro ms raw hfail
    simp only [extract_json, assistantContents_append, List.reverse_append]
    have : assistantContents [mkAssistantMsg raw] = [raw] := rfl
    rw [this]
    simp only [List.reverse_cons, List.reverse_nil, List.nil_append,
      List.cons_append, extractJsonLoop]
    cases hp : jsonLoads raw with
    | none => rfl
    | some v =>
      cases v with
      | obj fields => exact absurd hp (hfail fields)
      | null => rfl
      | bool b => rfl
      | num n => rfl
      | str s => rfl
      | arr items => rfl

/-- C1 witness: the backward walk instantiated — a parseable last assistant
message wins regardless of earlier ones, and an unparseable last message
defers to the earlier messages. -/
theorem c1_object_extraction_witness :
    extract_json ([] ++ [mkAssistantMsg "\x7b\"b\":2\x7d"]) = .ok [("b", Json.num 2)] ∧
    extract_json ([mkAssistantMsg "\x7b\"x\":1\x7d"] ++ [mkAssistantMsg "oops"]) =
      extract_json [mkAssistantMsg "\x7b\"x\":1\x7d"] := by
  constructor
  · exact c1_object_extraction.2.2.2.2.1 [] "\x7b\"b\":2\x7d" [("b", Json.num 2)] rfl
  · refine c1_object_extraction.2.2.2.2.2 [mkAssistantMsg "\x7b\"x\":1\x7d"] "oops" ?_
    intro fields h
    exact Option.noConfusion ((show jsonLoads "oops" = none from rfl).symm.trans h)

theorem dedupeAux_eq_keyed (entries : List FEntry) : ∀ seen,
    dedupeAux seen entries =
      dedupeKeyedAux seen
        (entries.filter (fun e => truthy e.func_name && truthy e.address)) := by
  induction entries with
  | nil => intro seen; rfl
  | cons e rest ih =>
    intro seen
    obtain ⟨fn, ad⟩ := e
    cases fn with
    | none =>
      simp only [dedupeAux, List.filter_cons]
      have h0 : truthy (none : Option String) = false := rfl
      simp [h0, ih seen]
    | some n =>
      cases ad with
      | none =>
        simp only [dedupeAux, List.filter_cons]
        have h0 : truthy (none : Option String) = false := rfl
        simp [h0, ih seen]
      | some a =>
        by_cases hn : n = ""
        · subst hn
          simp only [dedupeAux, List.filter_cons]
          have h1 : truthy (some "") = false := rfl
          simp [h1, ih seen]
        · by_cases ha : a = ""
          · subst ha
            simp only [dedupeAux, List.filter_cons]
            have h1 : truthy (some n) = true := by simp [truthy, hn]
            have h2 : truthy (some "") = false := rfl
            simp [h1, h2, hn, ih seen]
          · simp only [dedupeAux, List.filter_cons]
            have h1 : truthy (some n) = true := by simp [truthy, hn]
            have h2 : truthy (some a) = true := by simp [truthy, ha]
            simp only [h1, h2, Bool.and_self, if_true]
            rw [if_neg (by simp [hn, ha])]
            by_cases hk : (pyLower n, pyLower a) ∈ seen
            · rw [if_pos hk]
              simp [dedupeKeyedAux, entryKey, hk, ih seen]
            · rw [if_neg hk]
              simp [dedupeKeyedAux, entryKey, hk,
                ih ((pyLower n, pyLower a) :: seen)]

/-- C7: a record can have both fields *present* yet be dropped — the code
drops empty-string fields too (`if not name or not addr`), so the claimed
output (all both-present records, deduplicated) is wrong for a record with
an empty name. -/
theorem c7_counterexample :
    dedupe_functions [⟨some "", some "0x1"⟩] = [] ∧
    claimedDedupe [⟨some "", some "0x1"⟩] = [⟨some "", some "0x1"⟩] ∧
    (FEntry.mk (some "") (some "0x1")).func_name.isSome = true ∧
    (FEntry.mk (some "") (some "0x1")).address.isSome = true ∧
    dedupe_functions [⟨some "", some "0x1"⟩] ≠ claimedDedupe [⟨some "", some "0x1"⟩] := by
  refine ⟨rfl, rfl, rfl, rfl, ?_⟩
  decide

/-- C7 (amended): the deduplicator keeps, in first-seen order with later
duplicate `(name.lower, address.lower)` keys removed, exactly the records
whose name and address fields are both present *and non-empty*; records
missing either field or carrying an empty value are silently dropped. The
concrete three-record example deduplicates as the claim states. -/
theorem c7_dedupe :
    (∀ entries : List FEntry,
      dedupe_functions entries =
        dedupeKeyedAux []
          (entries.filter (fun e => truthy e.func_name && truthy e.address))) ∧
    dedupe_functions
        [⟨some "f", some "0x1"⟩, ⟨some "f", some "0x1"⟩, ⟨some "g", some "0x2"⟩] =
      [⟨some "f", some "0x1"⟩, ⟨some "g", some "0x2"⟩] := by
  refine ⟨fun entries => dedupeAux_eq_keyed entries [], ?_⟩
  decide

/-- C3: there is no retry wrapper around the resolve-handler step — with
responses on which extraction always fails it issues exactly one backend
conversation and re-raises, not three attempts as claimed. -/
theorem c3_counterexample :
    (analyze_major_function_target ⟨some "0x10", some "sub_10"⟩
        [mkAssistantMsg "no json here"]).2 = 1 ∧
    (analyze_major_function_target ⟨some "0x10", some "sub_10"⟩
        [mkAssistantMsg "no json here"]).1 =
      .error (.extraction "未能从助手响应中解析到 JSON 对象") ∧
    (1 : Nat) ≠ 3 :=
  ⟨rfl, rfl, by decide⟩

/-- C3 (amended): only the discover-callers step is wrapped in the 3-attempt
retry loop: when every attempt fails extraction it prints each failed
attempt's non-empty messages (role and content), sleeps a fixed 30 seconds
after the first two failures, issues exactly 3 backend conversations and
re-raises; when attempt 2 (the second) succeeds, its result is returned
after 2 conversations with no third attempt. Every other analysis step
issues its backend conversation exactly once, without retry. -/
theorem c3_retry_loop :
    ∀ backend : Nat → List Message,
      (extractJsonResultOpt (backend 0) = none →
        extractJsonResultOpt (backend 1) = none →
        extractJsonResultOpt (backend 2) = none →
        find_iocreatedevice_refs backend =
          ⟨.error (.extraction "未能从助手响应中解析到 JSON 列表"), 3,
            diagPrints (backend 0) ++ diagPrints (backend 1) ++
              diagPrints (backend 2), [30, 30]⟩) ∧
      (∀ l, extractJsonResultOpt (backend 0) = none →
        extractJsonResultOpt (backend 1) = some l →
        find_iocreatedevice_refs backend =
          ⟨.ok l, 2, diagPrints (backend 0), [30]⟩) ∧
      (∀ target rs, (analyze_major_function_target target rs).2 ≤ 1) := by
  intro backend
  refine ⟨?_, ?_, ?_⟩
  · intro h0 h1 h2
    simp [find_iocreatedevice_refs, h0, h1, h2]
  · intro l h0 h1
    simp [find_iocreatedevice_refs, h0, h1]
  · intro target rs
    unfold analyze_major_function_target
    by_cases h : target.address = none || target.func_name = none <;> simp [h]

/-- C3 witness: the retry loop evaluated at a backend that always fails and
at one that succeeds on the second attempt. -/
theorem c3_retry_loop_witness :
    find_iocreatedevice_refs c3BadBackend =
      ⟨.error (.extraction "未能从助手响应中解析到 JSON 列表"), 3,
        [("assistant", "no json here"), ("assistant", "no json here"),
          ("assistant", "no json here")], [30, 30]⟩ ∧
    find_iocreatedevice_refs c3GoodBackend =
      ⟨.ok [], 2, [("assistant", "x")], [30]⟩ := by
  have hbad : ∀ n, extractJsonResultOpt (c3BadBackend n) = none := fun _ => rfl
  have hg0 : extractJsonResultOpt (c3GoodBackend 0) = none := rfl
  have hg1 : extractJsonResultOpt (c3GoodBackend 1) = some [] := rfl
  constructor
  · exact (c3_retry_loop c3BadBackend).1 (hbad 0) (hbad 1) (hbad 2)
  · exact (c3_retry_loop c3GoodBackend).2.1 [] hg0 hg1

theorem cacheFind_set_self (c : Cache) (k : String) (r : DescRecord) :
    cacheFind (cacheSet c k r) k = some r := by
  induction c with
  | nil => simp [cacheSet, cacheFind]
  | cons p rest ih =>
    obtain ⟨k0, r0⟩ := p
    by_cases h : k0 = k
    · simp [cacheSet, cacheFind, h]
    · simp [cacheSet, cacheFind, h, ih]

theorem cache_lookup_update (cache : Cache) (name md A : String) :
    cache_lookup (cache_update cache name md A) name =
      some (let rec0 := (cache_lookup cache name).getD ⟨name, md, []⟩
        ⟨rec0.name, md,
          if A ∈ rec0.addresses then rec0.addresses
          else rec0.addresses ++ [A]⟩) := by
  simp only [cache_update, cache_lookup, cacheFind_set_self]

theorem describe_external_miss (cache : Cache) (name A md : String)
    (rs : List Message) (hmiss : cache_lookup cache name = none)
    (hmd : extract_markdown rs = .ok md) :
    describe_external_function cache ⟨some A, some name⟩ rs =
      ⟨.ok md, cache_update cache name md A, 1⟩ := by
  simp only [describe_external_function, cache_lookup] at hmiss ⊢
  simp [hmiss, hmd]

theorem describe_external_hit (cache : Cache) (name A : String)
    (rec : DescRecord) (rs : List Message)
    (hhit : cache_lookup cache name = some rec) :
    describe_external_function cache ⟨some A, some name⟩ rs =
      ⟨.ok rec.markdown,
        if A ∈ rec.addresses then cache
        else cache_update cache name rec.markdown A, 0⟩ := by
  simp only [describe_external_function, cache_lookup] at hhit ⊢
  simp [hhit]

/-- C4: the first description call for an uncached name issues one backend
conversation and persists a record keyed by the lowercased name holding the
markdown and `[A]`; a second call for the same name (any address `B`)
returns the identical markdown with no backend conversation, leaving the
record's addresses `[A]` when `B = A` and `[A, B]` when `B ≠ A`. -/
theorem c4_cache_idempotence :
    ∀ (cache : Cache) (name A B md : String) (rs1 rs2 : List Message),
      cache_lookup cache name = none →
      extract_markdown rs1 = .ok md →
      (describe_external_function cache ⟨some A, some name⟩ rs1).result = .ok md ∧
      (describe_external_function cache ⟨some A, some name⟩ rs1).backendCalls = 1 ∧
      cache_lookup (describe_external_function cache ⟨some A, some name⟩ rs1).cache
          name = some ⟨name, md, [A]⟩ ∧
      (describe_external_function
          (describe_external_function cache ⟨some A, some name⟩ rs1).cache
          ⟨some B, some name⟩ rs2).result = .ok md ∧
      (describe_external_function
          (describe_external_function cache ⟨some A, some name⟩ rs1).cache
          ⟨some B, some name⟩ rs2).backendCalls = 0 ∧
      (B = A →
        cache_lookup (describe_external_function
            (describe_external_function cache ⟨some A, some name⟩ rs1).cache
            ⟨some B, some name⟩ rs2).cache name = some ⟨name, md, [A]⟩) ∧
      (B ≠ A →
        cache_lookup (describe_external_function
            (describe_external_function cache ⟨some A, some name⟩ rs1).cache
            ⟨some B, some name⟩ rs2).cache name = some ⟨name, md, [A, B]⟩) := by
  intro cache name A B md rs1 rs2 hmiss hmd
  have h1 := describe_external_miss cache name A md rs1 hmiss hmd
  have hlook1 : cache_lookup (describe_external_function cache
      ⟨some A, some name⟩ rs1).cache name = some ⟨name, md, [A]⟩ := by
    rw [h1]
    have := cache_lookup_update cache name md A
    simp only [hmiss, Option.getD_none] at this
    simpa using this
  have h2 := describe_external_hit
    (describe_external_function cache ⟨some A, some name⟩ rs1).cache
    name B ⟨name, md, [A]⟩ rs2 hlook1
  refine ⟨by rw [h1], by rw [h1], hlook1, by rw [h2], by rw [h2], ?_, ?_⟩
  · intro hBA
    subst hBA
    rw [h2]
    simp [hlook1]
  · intro hBA
    rw [h2]
    simp only [List.mem_singleton, hBA, if_neg]
    have := cache_lookup_update
      (describe_external_function cache ⟨some A, some name⟩ rs1).cache name md B
    simp only [hlook1, Option.getD_some] at this
    simpa [hBA] using this

/-- C4 witness: the cache evaluated through two concrete call pairs —
`0x100` then `0x100` leaves `["0x100"]`; `0x100` then `0x200` leaves
`["0x100", "0x200"]`. -/
theorem c4_cache_idempotence_witness :
    cache_lookup (describe_external_function
        (describe_external_function [] ⟨some "0x100", some "NtFoo"⟩
          [mkAssistantMsg "md-text"]).cache
        ⟨some "0x100", some "NtFoo"⟩ []).cache "NtFoo" =
      some ⟨"NtFoo", "md-text", ["0x100"]⟩ ∧
    cache_lookup (describe_external_function
        (describe_external_function [] ⟨some "0x100", some "NtFoo"⟩
          [mkAssistantMsg "md-text"]).cache
        ⟨some "0x200", some "NtFoo"⟩ []).cache "NtFoo" =
      some ⟨"NtFoo", "md-text", ["0x100", "0x200"]⟩ := by
  have hmiss : cache_lookup [] "NtFoo" = none := rfl
  have hmd : extract_markdown [mkAssistantMsg "md-text"] = .ok "md-text" := rfl
  constructor
  · exact (c4_cache_idempotence [] "NtFoo" "0x100" "0x100" "md-text"
      [mkAssistantMsg "md-text"] [] hmiss hmd).2.2.2.2.2.1 rfl
  · exact (c4_cache_idempotence [] "NtFoo" "0x100" "0x200" "md-text"
      [mkAssistantMsg "md-text"] [] hmiss hmd).2.2.2.2.2.2 (by decide)

/-- C5: internal descriptions are *not* served from the cache — even with
the child's name present in the description cache, `describe_internal_function`
issues a backend conversation (the function consults no cache at all) and
returns the fresh backend markdown rather than the cached one. -/
theorem c5_counterexample :
    describe_internal_function ⟨some "0x1", some "memcpy"⟩
        [mkAssistantMsg "fresh internal description"] =
      (.ok "fresh internal description", 1) ∧
    (1 : Nat) ≠ 0 ∧
    cache_lookup [("memcpy", ⟨"memcpy", "cached markdown", ["0x9"]⟩)] "memcpy" =
      some ⟨"memcpy", "cached markdown", ["0x9"]⟩ ∧
    "fresh internal description" ≠ "cached markdown" :=
  ⟨rfl, by decide, rfl, by decide⟩

/-- C5 (amended): only the external describe-function step caches: a call
for a name already present in the cache is served from the cache with no
backend conversation, while an internal description always issues exactly
one backend conversation regardless of any cache contents. -/
theorem c5_description_caching :
    (∀ (cache : Cache) (rec : DescRecord) (name A : String) (rs : List Message),
      cache_lookup cache name = some rec →
      (describe_external_function cache ⟨some A, some name⟩ rs).result =
        .ok rec.markdown ∧
      (describe_external_function cache ⟨some A, some name⟩ rs).backendCalls = 0) ∧
    (∀ (entry : EntryDict) (rs : List Message),
      entry.address ≠ none → entry.name ≠ none →
      (describe_internal_function entry rs).2 = 1) := by
  constructor
  · intro cache rec name A rs hhit
    have h := describe_external_hit cache name A rec rs hhit
    exact ⟨by rw [h], by rw [h]⟩
  · intro entry rs ha hn
    simp [describe_internal_function, ha, hn]

/-- C5 witness: a cached external name answers from the cache with zero
backend conversations; an internal description issues one. -/
theorem c5_description_caching_witness :
    (describe_external_function
        [("mmgetsystemroutineaddress",
          ⟨"MmGetSystemRoutineAddress", "cached md", ["0x10"]⟩)]
        ⟨some "0x20", some "MmGetSystemRoutineAddress"⟩ []).result =
      .ok "cached md" ∧
    (describe_external_function
        [("mmgetsystemroutineaddress",
          ⟨"MmGetSystemRoutineAddress", "cached md", ["0x10"]⟩)]
        ⟨some "0x20", some "MmGetSystemRoutineAddress"⟩ []).backendCalls = 0 ∧
    (describe_internal_function ⟨some "0x30", some "sub_30"⟩
        [mkAssistantMsg "d"]).2 = 1 := by
  have hh : cache_lookup
      [("mmgetsystemroutineaddress",
        ⟨"MmGetSystemRoutineAddress", "cached md", ["0x10"]⟩)]
      "MmGetSystemRoutineAddress" =
      some ⟨"MmGetSystemRoutineAddress", "cached md", ["0x10"]⟩ := rfl
  refine ⟨(c5_description_caching.1 _ _ _ "0x20" [] hh).1,
    (c5_description_caching.1 _ _ _ "0x20" [] hh).2,
    c5_description_caching.2 ⟨some "0x30", some "sub_30"⟩ [mkAssistantMsg "d"]
      (by decide) (by decide)⟩

theorem extract_markdown_not_validation (rs : List Message) :
    isValidationResult (extract_markdown rs) = false := by
  cases h : (assistantContents rs).getLast? <;>
    simp [extract_markdown, h, isValidationResult, Err.isValidation]

theorem extractJsonLoop_not_validation (l : List String) :
    isValidationResult (extractJsonLoop l) = false := by
  induction l with
  | nil => rfl
  | cons raw rest ih =>
    simp only [extractJsonLoop]
    cases hp : jsonLoads raw with
    | none => exact ih
    | some v =>
      cases v with
      | obj fields => rfl
      | null => exact ih
      | bool b => exact ih
      | num n => exact ih
      | str s => exact ih
      | arr items => exact ih

/-- C9: the step-entry validation checks key *presence*, not non-emptiness:
an entry with an empty-string address passes validation — no validation
error is raised and the backend conversation is issued — contradicting the
claim that a FunctionRef without a non-empty address fails fast. -/
theorem c9_counterexample :
    describe_internal_function ⟨some "", some "sub_1"⟩ [mkAssistantMsg "d"] =
      (.ok "d", 1) ∧
    isValidationResult (describe_internal_function ⟨some "", some "sub_1"⟩
        [mkAssistantMsg "d"]).1 = false ∧
    truthy (some "") = false :=
  ⟨rfl, rfl, rfl⟩

/-- C9 (amended): every description and memory-analysis step fails fast at
step entry — with a validation error and zero backend conversations —
whenever its input dict lacks the address or name key; when both keys are
*present* (with any values, empty strings included) no validation error is
ever raised. -/
theorem c9_step_validation :
    (∀ (entry : EntryDict) (rs : List Message),
      (entry.address = none ∨ entry.name = none) →
      describe_internal_function entry rs =
        (.error (.validation "entry 必须包含 address 与 name 字段"), 0)) ∧
    (∀ (entry : EntryDict) (rs : List Message) (cache : Cache),
      (entry.address = none ∨ entry.name = none) →
      describe_external_function cache entry rs =
        ⟨.error (.validation "entry 必须包含 address 与 name 字段"), cache, 0⟩) ∧
    (∀ (target : TargetDict) (rs : List Message),
      (target.address = none ∨ target.func_name = none) →
      analyze_memory_param target rs =
        (.error (.validation "target 必须包含 address 与 func_name 键"), 0)) ∧
    (∀ (target : TargetDict) (ctx : Option String) (rs : List Message),
      (target.address = none ∨ target.func_name = none) →
      analyze_irp_memory_access target ctx rs =
        (.error (.validation "target 必须包含 address 与 func_name 键"), 0, none)) ∧
    (∀ (a n : String) (rs : List Message),
      isValidationResult (describe_internal_function ⟨some a, some n⟩ rs).1 = false) ∧
    (∀ (a n : String) (rs : List Message) (cache : Cache),
      isValidationResult
        (describe_external_function cache ⟨some a, some n⟩ rs).result = false) ∧
    (∀ (a n : String) (rs : List Message),
      isValidationResult (analyze_memory_param ⟨some a, some n⟩ rs).1 = false) ∧
    (∀ (a n : String) (ctx : Option String) (rs : List Message),
      isValidationResult
        (analyze_irp_memory_access ⟨some a, some n⟩ ctx rs).1 = false) := by
  refine ⟨?_, ?_, ?_, ?_, ?_, ?_, ?_, ?_⟩
  · intro entry rs h
    rcases h with h | h <;> simp [describe_internal_function, h]
  · intro entry rs cache h
    rcases h with h | h <;> simp [describe_external_function, h]
  · intro target rs h
    rcases h with h | h <;> simp [analyze_memory_param, h]
  · intro target ctx rs h
    rcases h with h | h <;> simp [analyze_irp_memory_access, h]
  · intro a n rs
    simpa [describe_internal_function] using extract_markdown_not_validation rs
  · intro a n rs cache
    cases hl : cache_lookup cache n with
    | some rec =>
      simp [describe_external_hit cache n a rec rs hl, isValidationResult]
    | none =>
      cases hm : extract_markdown rs with
      | ok md => simp [describe_external_miss cache n a md rs hl hm, isValidationResult]
      | error e =>
        have hnv := extract_markdown_not_validation rs
        rw [hm] at hnv
        simp only [describe_external_function, cache_lookup] at hl ⊢
        simp [hl, hm, isValidationResult]
        simpa [isValidationResult] using hnv
  · intro a n rs
    simpa [analyze_memory_param, extract_json] using
      extractJsonLoop_not_validation (assistantContents rs).reverse
  · intro a n ctx rs
    simpa [analyze_irp_memory_access] using extract_markdown_not_validation rs

/-- C9 witness: the validation evaluated at concrete dicts with a missing
key (fails fast, zero backend calls) and with both keys present. -/
theorem c9_step_validation_witness :
    describe_internal_function ⟨none, some "sub_9"⟩ [] =
      (.error (.validation "entry 必须包含 address 与 name 字段"), 0) ∧
    describe_external_function [] ⟨some "0x9", none⟩ [] =
      ⟨.error (.validation "entry 必须包含 address 与 name 字段"), [], 0⟩ ∧
    analyze_memory_param ⟨none, none⟩ [] =
      (.error (.validation "target 必须包含 address 与 func_name 键"), 0) ∧
    analyze_irp_memory_access ⟨none, some "f"⟩ none [] =
      (.error (.validation "target 必须包含 address 与 func_name 键"), 0, none) ∧
    isValidationResult (analyze_memory_param ⟨some "0x9", some "f"⟩
        [mkAssistantMsg "x"]).1 = false :=
  ⟨c9_step_validation.1 _ [] (Or.inl rfl),
    c9_step_validation.2.1 _ [] [] (Or.inr rfl),
    c9_step_validation.2.2.1 _ [] (Or.inl rfl),
    c9_step_validation.2.2.2.1 _ none [] (Or.inl rfl),
    c9_step_validation.2.2.2.2.2.2.1 "0x9" "f" [mkAssistantMsg "x"]⟩

/-- C6: the memory-marker side path does not apply to children "of either
kind": an external child whose description contains the `# MAP #` marker
triggers no analyze-memory-parameters call, and its description is returned
unchanged, with no analysis appended. -/
theorem c6_counterexample :
    describe_child envExtMarker
        ⟨some "0x40", some "MmMapIoSpace", some "external"⟩ =
      (.ok ("MmMapIoSpace wrapper # MAP # (see definition)", ""),
        [.descExternal "0x40" "MmMapIoSpace"]) ∧
    has_memory_marker "MmMapIoSpace wrapper # MAP # (see definition)" = true ∧
    Call.memParam ⟨"0x40", "MmMapIoSpace"⟩ ∉
      (describe_child envExtMarker
        ⟨some "0x40", some "MmMapIoSpace", some "external"⟩).2 ∧
    (describe_child envExtMarker
        ⟨some "0x40", some "MmMapIoSpace", some "external"⟩).1 ≠
      .ok ("MmMapIoSpace wrapper # MAP # (see definition)" ++ "\n\n---\n" ++
        "MEMO", "MEMO") := by
  refine ⟨rfl, rfl, by decide, ?_⟩
  intro h
  have h' := (show (describe_child envExtMarker
      ⟨some "0x40", some "MmMapIoSpace", some "external"⟩).1 =
      Except.ok ("MmMapIoSpace wrapper # MAP # (see definition)", "") from rfl).symm.trans h
  have h2 := congrArg (fun x =>
    match x with
    | Except.ok (p : String × String) => p.2
    | Except.error _ => "") h'
  exact absurd h2 (by decide)

/-- C6 (amended): the marker side path applies to *internal* children only:
an internal child whose description contains a marker gets exactly one
additional analyze-memory-parameters call whose markdown is appended to the
description (after `\n\n---\n`) before the description is returned for
downstream use; an internal description without markers, and every external
child, triggers no such call. -/
theorem c6_memory_marker :
    ∀ (env : Env) (a n desc memMd : String),
      (env.descInternal a n = .ok desc → has_memory_marker desc = true →
        env.memParamMd ⟨a, n⟩ = .ok memMd →
        describe_child env ⟨some a, some n, some "internal"⟩ =
          (.ok (desc ++ "\n\n---\n" ++ memMd, memMd),
            [.descInternal a n, .memParam ⟨a, n⟩])) ∧
      (env.descInternal a n = .ok desc → has_memory_marker desc = false →
        describe_child env ⟨some a, some n, some "internal"⟩ =
          (.ok (desc, ""), [.descInternal a n])) ∧
      (env.descExternal a n = .ok desc →
        describe_child env ⟨some a, some n, some "external"⟩ =
          (.ok (desc, ""), [.descExternal a n])) := by
  intro env a n desc memMd
  refine ⟨?_, ?_, ?_⟩
  · intro hd hm hp
    simp [describe_child, hd, hm, hp]
  · intro hd hm
    simp [describe_child, hd, hm]
  · intro hd
    simp [describe_child, hd]

/-- C6 witness: a marker-bearing internal child, a plain internal child and
an external child, evaluated concretely. -/
theorem c6_memory_marker_witness :
    describe_child envIntMarker ⟨some "0x81", some "sub_81", some "internal"⟩ =
      (.ok ("copies the request buffer # MEM #" ++ "\n\n---\n" ++ "MEMNOTE",
        "MEMNOTE"),
        [.descInternal "0x81" "sub_81", .memParam ⟨"0x81", "sub_81"⟩]) ∧
    describe_child envIntMarker ⟨some "0x82", some "sub_82", some "internal"⟩ =
      (.ok ("plain helper", ""), [.descInternal "0x82" "sub_82"]) ∧
    describe_child envIntMarker ⟨some "0x83", some "ExFreePool", some "external"⟩ =
      (.ok ("plain external", ""), [.descExternal "0x83" "ExFreePool"]) := by
  have h1 : envIntMarker.descInternal "0x81" "sub_81" =
      .ok "copies the request buffer # MEM #" := rfl
  have hm1 : has_memory_marker "copies the request buffer # MEM #" = true := rfl
  have hp1 : envIntMarker.memParamMd ⟨"0x81", "sub_81"⟩ = .ok "MEMNOTE" := rfl
  have h2 : envIntMarker.descInternal "0x82" "sub_82" = .ok "plain helper" := rfl
  have hm2 : has_memory_marker "plain helper" = false := rfl
  have h3 : envIntMarker.descExternal "0x83" "ExFreePool" = .ok "plain external" := rfl
  exact ⟨(c6_memory_marker envIntMarker "0x81" "sub_81"
      "copies the request buffer # MEM #" "MEMNOTE").1 h1 hm1 hp1,
    (c6_memory_marker envIntMarker "0x82" "sub_82" "plain helper" "MEMNOTE").2.1
      h2 hm2,
    (c6_memory_marker envIntMarker "0x83" "ExFreePool" "plain external"
      "MEMNOTE").2.2 h3⟩

/-- C8: for the claimed token sequence the assembled reasoning text is
`"why soignored"`, not `"why so"` — the post-transition fragment is part of
the reasoning accumulator the final text is joined from. -/
theorem c8_counterexample :
    reasoningText (runStream c8Chunks) = "why soignored" ∧
    reasoningText (runStream c8Chunks) ≠ "why so" := by
  refine ⟨rfl, ?_⟩
  intro h
  have h' := (show reasoningText (runStream c8Chunks) = "why soignored"
    from rfl).symm.trans h
  exact absurd h' (by decide)

/-- C8 (amended): the assembler starts in the THINKING state and flips to
ANSWERING at the first chunk with a non-empty answer fragment; for the
claimed sequence the answer text is `"yes"`, the `"ignored"` fragment is
appended to the reasoning accumulator but not echoed live (only `"why "`
and `"so"` are), and the final reasoning text — the joined accumulator —
is therefore `"why soignored"`. -/
theorem c8_stream_split :
    (runStream []).isAnswering = false ∧
    (runStream [chunkReasoning "why "]).isAnswering = false ∧
    (runStream [chunkReasoning "why ", chunkReasoning "so"]).isAnswering = false ∧
    (runStream [chunkReasoning "why ", chunkReasoning "so",
      chunkAnswer "yes"]).isAnswering = true ∧
    reasoningText (runStream c8Chunks) = "why soignored" ∧
    answerText (runStream c8Chunks) = "yes" ∧
    (runStream c8Chunks).reasoningParts = ["why ", "so", "ignored"] ∧
    liveThinkingEchoes (runStream c8Chunks) = ["why ", "so"] ∧
    (runStream c8Chunks).events =
      [.thinkingEcho "why ", .thinkingEcho "so", .answerBanner,
        .answerEcho "yes"] :=
  ⟨rfl, rfl, rfl, rfl, rfl, rfl, rfl, rfl, rfl⟩

theorem pmf_enum_failed (env : Env) (caller : FEntry) (handler : HTarget)
    (e : Err) (hlist : env.listSub handler = .error e) :
    (process_major_function env caller handler).childSections = [] ∧
    (process_major_function env caller handler).childBlock = NO_CHILD_PLACEHOLDER ∧
    (process_major_function env caller handler).trace =
      [.listSub handler, .memParam handler,
        .irp handler (process_major_function env caller handler).combinedContext] := by
  simp [process_major_function, hlist, childLoop, childBlockOf,
    analyze_parent_memory, analyze_irp_memory_section]

/-- C2: with three discovered callers all of whose handlers resolve, an
enumerate-children failure for the middle caller leaves three caller
sections in the final report; the failing caller's child block is the fixed
placeholder, its child-section list is empty, and its parent memory
analysis, controlled-access analysis (fed the context built from the
placeholder) and report emission all still run. -/
theorem c2_partial_failure :
    ∀ (env : Env) (cA cB cC : FEntry) (hA hB hC : HTarget) (e : Err),
      env.findRefs = .ok [cA, cB, cC] →
      dedupe_functions [cA, cB, cC] = [cA, cB, cC] →
      env.analyzeMajor cA = .ok hA →
      env.analyzeMajor cB = .ok hB →
      env.analyzeMajor cC = .ok hC →
      env.listSub hB = .error e →
      (pipeline_main env).reports =
        [(process_major_function env cA hA).report,
          (process_major_function env cB hB).report,
          (process_major_function env cC hC).report] ∧
      (pipeline_main env).reports.length = 3 ∧
      (process_major_function env cB hB).childSections = [] ∧
      (process_major_function env cB hB).childBlock = NO_CHILD_PLACEHOLDER ∧
      Call.memParam hB ∈ (pipeline_main env).trace ∧
      Call.irp hB (process_major_function env cB hB).combinedContext ∈
        (pipeline_main env).trace ∧
      (pipeline_main env).finalOutput =
        some ("# IoCreateDevice 调度分析报告\n\n" ++
          String.intercalate "\n\n---\n\n"
            [(process_major_function env cA hA).report,
              (process_major_function env cB hB).report,
              (process_major_function env cC hC).report]) := by
  intro env cA cB cC hA hB hC e hfind hdedupe hmA hmB hmC hlist
  obtain ⟨hsecB, hblockB, htrB⟩ := pmf_enum_failed env cB hB e hlist
  have hreports : (pipeline_main env).reports =
      [(process_major_function env cA hA).report,
        (process_major_function env cB hB).report,
        (process_major_function env cC hC).report] := by
    simp [pipeline_main, hfind, hdedupe, processCallers, hmA, hmB, hmC]
  have htrace : (pipeline_main env).trace =
      Call.findRefs :: Call.analyzeMajor cA :: Call.renameIoc hA ::
        Call.defineDispatch hA ::
        ((process_major_function env cA hA).trace ++
          (Call.analyzeMajor cB :: Call.renameIoc hB :: Call.defineDispatch hB ::
            ((process_major_function env cB hB).trace ++
              (Call.analyzeMajor cC :: Call.renameIoc hC ::
                Call.defineDispatch hC ::
                ((process_major_function env cC hC).trace ++ []))))) := by
    simp [pipeline_main, hfind, hdedupe, processCallers, hmA, hmB, hmC]
  have hmemB : Call.memParam hB ∈ (process_major_function env cB hB).trace := by
    rw [htrB]; simp
  have hirpB : Call.irp hB (process_major_function env cB hB).combinedContext ∈
      (process_major_function env cB hB).trace := by
    rw [htrB]; simp
  refine ⟨hreports, by rw [hreports]; rfl, hsecB, hblockB, ?_, ?_, ?_⟩
  · rw [htrace]; simp [hmemB]
  · rw [htrace]; simp [hirpB]
  · simp [pipeline_main, hfind, hdedupe, processCallers, hmA, hmB, hmC]

/-- C2 witness: the three-caller scenario evaluated concretely — three
report sections, placeholder child block for the failing caller, and its
memory and controlled-access steps present in the call trace. -/
theorem c2_partial_failure_witness :
    (pipeline_main envThreeCallers).reports.length = 3 ∧
    (process_major_function envThreeCallers callerB handlerB).childBlock =
      NO_CHILD_PLACEHOLDER ∧
    Call.memParam handlerB ∈ (pipeline_main envThreeCallers).trace ∧
    Call.irp handlerB
        (process_major_function envThreeCallers callerB handlerB).combinedContext ∈
      (pipeline_main envThreeCallers).trace := by
  have hfind : envThreeCallers.findRefs = .ok [callerA, callerB, callerC] := rfl
  have hdedupe : dedupe_functions [callerA, callerB, callerC] =
      [callerA, callerB, callerC] := by decide
  have hmA : envThreeCallers.analyzeMajor callerA = .ok handlerA := rfl
  have hmB : envThreeCallers.analyzeMajor callerB = .ok handlerB := rfl
  have hmC : envThreeCallers.analyzeMajor callerC = .ok handlerC := rfl
  have hlist : envThreeCallers.listSub handlerB =
      .error (.extraction "枚举失败") := rfl
  obtain ⟨_, h2, _, h4, h5, h6, _⟩ := c2_partial_failure envThreeCallers
    callerA callerB callerC handlerA handlerB handlerC (.extraction "枚举失败")
    hfind hdedupe hmA hmB hmC hlist
  exact ⟨h2, h4, h5, h6⟩

/-- C10: a child whose description raises is omitted from the caller's
section entirely — no per-child placeholder — the surviving children
appear in enumeration order, and the no-child-descriptions placeholder
appears exactly when no child yields a description. -/
theorem c10_child_skip :
    (∀ (env : Env) (k1 k2 k3 : ChildDict) (d1 d3 : String) (e : Err),
      (describe_child env k1).1 = .ok (d1, "") →
      (describe_child env k2).1 = .error e →
      (describe_child env k3).1 = .ok (d3, "") →
      (childLoop env [k1, k2, k3]).1 =
        [format_child_section k1 d1, format_child_section k3 d3] ∧
      childBlockOf (childLoop env [k1, k2, k3]).1 =
        format_child_section k1 d1 ++ "\n\n" ++ format_child_section k3 d3 ∧
      childBlockOf (childLoop env [k1, k2, k3]).1 ≠ NO_CHILD_PLACEHOLDER) ∧
    (∀ (env : Env) (k1 k2 k3 : ChildDict) (e1 e2 e3 : Err),
      (describe_child env k1).1 = .error e1 →
      (describe_child env k2).1 = .error e2 →
      (describe_child env k3).1 = .error e3 →
      (childLoop env [k1, k2, k3]).1 = [] ∧
      childBlockOf (childLoop env [k1, k2, k3]).1 = NO_CHILD_PLACEHOLDER) := by
  constructor
  · intro env k1 k2 k3 d1 d3 e h1 h2 h3
    rcases hdc1 : describe_child env k1 with ⟨r1, t1⟩
    rcases hdc2 : describe_child env k2 with ⟨r2, t2⟩
    rcases hdc3 : describe_child env k3 with ⟨r3, t3⟩
    rw [hdc1] at h1
    rw [hdc2] at h2
    rw [hdc3] at h3
    simp only at h1 h2 h3
    subst h1 h2 h3
    have hsec : (childLoop env [k1, k2, k3]).1 =
        [format_child_section k1 d1, format_child_section k3 d3] := by
      simp [childLoop, hdc1, hdc2, hdc3]
    refine ⟨hsec, by rw [hsec]; rfl, ?_⟩
    rw [hsec]
    intro hEq
    have hhead : (childBlockOf
        [format_child_section k1 d1, format_child_section k3 d3]).data.head? =
        some '#' := rfl
    rw [hEq] at hhead
    exact absurd hhead (by decide)
  · intro env k1 k2 k3 e1 e2 e3 h1 h2 h3
    rcases hdc1 : describe_child env k1 with ⟨r1, t1⟩
    rcases hdc2 : describe_child env k2 with ⟨r2, t2⟩
    rcases hdc3 : describe_child env k3 with ⟨r3, t3⟩
    rw [hdc1] at h1
    rw [hdc2] at h2
    rw [hdc3] at h3
    simp only at h1 h2 h3
    subst h1 h2 h3
    have hsec : (childLoop env [k1, k2, k3]).1 = [] := by
      simp [childLoop, hdc1, hdc2, hdc3]
    exact ⟨hsec, by rw [hsec]; rfl⟩

/-- C10 witness: the skip loop evaluated concretely — the failing middle
child `bad` disappears from the sections while `g1` and `g3` survive in
order, and three failing children leave the placeholder block. -/
theorem c10_child_skip_witness :
    (childLoop envChildFail
        [⟨some "0x1", some "g1", some "internal"⟩,
          ⟨some "0x2", some "bad", some "internal"⟩,
          ⟨some "0x3", some "g3", some "internal"⟩]).1 =
      [format_child_section ⟨some "0x1", some "g1", some "internal"⟩ "desc of g1",
        format_child_section ⟨some "0x3", some "g3", some "internal"⟩ "desc of g3"] ∧
    childBlockOf (childLoop envChildFail
        [⟨some "0x1", some "g1", some "internal"⟩,
          ⟨some "0x2", some "bad", some "internal"⟩,
          ⟨some "0x3", some "g3", some "internal"⟩]).1 ≠ NO_CHILD_PLACEHOLDER ∧
    (childLoop envChildFail
        [⟨some "0x2", some "bad", some "internal"⟩,
          ⟨some "0x4", some "bad", some "internal"⟩,
          ⟨some "0x5", some "bad", some "internal"⟩]).1 = [] ∧
    childBlockOf (childLoop envChildFail
        [⟨some "0x2", some "bad", some "internal"⟩,
          ⟨some "0x4", some "bad", some "internal"⟩,
          ⟨some "0x5", some "bad", some "internal"⟩]).1 = NO_CHILD_PLACEHOLDER := by
  have h1 : (describe_child envChildFail
      ⟨some "0x1", some "g1", some "internal"⟩).1 = .ok ("desc of g1", "") := rfl
  have h2 : (describe_child envChildFail
      ⟨some "0x2", some "bad", some "internal"⟩).1 =
      .error (.extraction "描述失败") := rfl
  have h3 : (describe_child envChildFail
      ⟨some "0x3", some "g3", some "internal"⟩).1 = .ok ("desc of g3", "") := rfl
  have h4 : (describe_child envChildFail
      ⟨some "0x4", some "bad", some "internal"⟩).1 =
      .error (.extraction "描述失败") := rfl
  have h5 : (describe_child envChildFail
      ⟨some "0x5", some "bad", some "internal"⟩).1 =
      .error (.extraction "描述失败") := rfl
  obtain ⟨hs, _, hne⟩ := c10_child_skip.1 envChildFail _ _ _ "desc of g1"
    "desc of g3" (.extraction "描述失败") h1 h2 h3
  obtain ⟨hs2, hb2⟩ := c10_child_skip.2 envChildFail _ _ _
    (.extraction "描述失败") (.extraction "描述失败") (.extraction "描述失败")
    h2 h4 h5
  exact ⟨hs, hne, hs2, hb2⟩
